import Mathlib

/-!
Verification of the BCM risk-register application (accounts, risks,
dashboard modules) against its specification.  Python/Django code is
shallowly embedded: model records become Lean structures, role strings
stay strings (the `role` column is a CharField), nullable foreign keys
become `Option`, query-set pipelines become list functions, and the
Django `Paginator.get_page` contract is reproduced for the pagination
claim.
-/

namespace BCM

/-- Primary key of a Department row.  `Risk.department` is a non-nullable
foreign key, `User.department` is nullable (`null=True`). -/
abbrev DeptId := Nat

/-- Primary key of a User row. -/
abbrev UserId := Nat

/-- Timestamps (`timezone.now()` values) are abstracted to naturals. -/
abbrev Time := Nat

/-- Role constants from `accounts/models.py` (`User.Role` TextChoices). -/
def Role.ADMIN : String := "ADMIN"

/-- Role constant for department users. -/
def Role.DEPARTMENT_USER : String := "DEPARTMENT_USER"

/-- Role constant for viewers/auditors. -/
def Role.VIEWER : String := "VIEWER"

/-- The fields of `accounts.models.User` the claims touch.  `role` is a
CharField, so it is kept as an arbitrary string; `department` is a
nullable foreign key. -/
structure User where
  id : UserId
  role : String
  department : Option DeptId
  deriving Repr, DecidableEq

/-- The fields of `risks.models.Risk`.  `department` is a non-nullable
cascade foreign key; `locked_by`, `locked_at`, `mitigation_notes`,
`created_by`, `updated_by` are nullable. -/
structure Risk where
  department : DeptId
  expected_problem : String
  impact : String
  estimated_resolution_duration : Nat
  resolution_duration_unit : String
  mitigation_notes : Option String
  severity : String
  status : String
  is_locked : Bool
  locked_by : Option UserId
  locked_at : Option Time
  created_by : Option UserId
  updated_by : Option UserId
  created_at : Time
  deriving Repr, DecidableEq

/-- `User.is_admin` from `accounts/models.py`. -/
def User.is_admin (u : User) : Bool :=
  u.role == Role.ADMIN

/-- `User.is_department_user` from `accounts/models.py`. -/
def User.is_department_user (u : User) : Bool :=
  u.role == Role.DEPARTMENT_USER

/-- `User.is_viewer` from `accounts/models.py`. -/
def User.is_viewer (u : User) : Bool :=
  u.role == Role.VIEWER

/-- `User.can_edit_risk` from `accounts/models.py` lines 115-135.  The
Python comparison `risk.department == self.department` compares a
Department instance against a possibly-None reference, so it holds iff
the user department is non-null and equal. -/
def User.can_edit_risk (u : User) (risk : Risk) : Bool :=
  if u.is_admin then
    true
  else if u.is_department_user && (some risk.department == u.department) then
    !risk.is_locked
  else
    false

/-- `User.can_view_risk` from `accounts/models.py` lines 137-155. -/
def User.can_view_risk (u : User) (risk : Risk) : Bool :=
  if u.is_admin || u.is_viewer then
    true
  else if u.is_department_user then
    some risk.department == u.department
  else
    false

/-- `Risk.lock` from `risks/models.py` lines 239-260: sets `is_locked`,
`locked_by`, `locked_at` and saves with
`update_fields=[is_locked, locked_by, locked_at]`, so the persisted row
changes in exactly these three fields.  `timezone.now()` is passed in as
`now`. -/
def Risk.lock (r : Risk) (user : User) (now : Time) : Risk :=
  { r with is_locked := true, locked_by := some user.id, locked_at := some now }

/-- `Risk.unlock` from `risks/models.py` lines 262-278: clears the same
three fields and saves only them. -/
def Risk.unlock (r : Risk) : Risk :=
  { r with is_locked := false, locked_by := none, locked_at := none }

/-- The fields of a POST body bound by `RiskForm` (`risks/forms.py`,
`Meta.fields`).  `department` is the department value supplied in the
request, if any. -/
structure RiskFormData where
  department : Option DeptId
  expected_problem : String
  impact : String
  estimated_resolution_duration : Nat
  resolution_duration_unit : String
  mitigation_notes : Option String
  severity : String
  status : String
  deriving Repr, DecidableEq

/-- An unsaved `Risk` instance as produced by `form.save(commit=False)`
in `risk_create`: the department foreign key may still be unset. -/
structure NewRisk where
  department : Option DeptId
  expected_problem : String
  impact : String
  estimated_resolution_duration : Nat
  resolution_duration_unit : String
  mitigation_notes : Option String
  severity : String
  status : String
  created_by : Option UserId
  updated_by : Option UserId
  deriving Repr, DecidableEq

/-- `RiskForm.__init__` (`risks/forms.py` lines 56-67) pops the
`department` field for department users, so the bound form carries no
department for them; for everyone else the submitted value is kept. -/
def RiskForm.cleaned_department (user : User) (data : RiskFormData) : Option DeptId :=
  if user.is_department_user then none else data.department

/-- `form.save(commit=False)` inside `risk_create`: builds an unsaved
Risk instance from the bound form fields. -/
def RiskForm.save_commit_false (user : User) (data : RiskFormData) : NewRisk :=
  { department := RiskForm.cleaned_department user data
    expected_problem := data.expected_problem
    impact := data.impact
    estimated_resolution_duration := data.estimated_resolution_duration
    resolution_duration_unit := data.resolution_duration_unit
    mitigation_notes := data.mitigation_notes
    severity := data.severity
    status := data.status
    created_by := none
    updated_by := none }

/-- The POST branch of `risk_create` (`risks/views.py` lines 71-93) after
form validation: department users have the department overwritten with
their own, admins keep the form value; `created_by`/`updated_by` are set
to the requesting user. -/
def risk_create (user : User) (data : RiskFormData) : NewRisk :=
  let risk := RiskForm.save_commit_false user data
  let risk :=
    if user.is_department_user then { risk with department := user.department }
    else risk
  { risk with created_by := some user.id, updated_by := some user.id }

/-- Status constant from `Risk.Status`. -/
def Status.OPEN : String := "OPEN"

/-- Status constant from `Risk.Status`. -/
def Status.IN_PROGRESS : String := "IN_PROGRESS"

/-- Status constant from `Risk.Status`. -/
def Status.RESOLVED : String := "RESOLVED"

/-- Status constant from `Risk.Status`. -/
def Status.CLOSED : String := "CLOSED"

/-- Severity constant from `Risk.Severity`. -/
def Severity.CRITICAL : String := "CRITICAL"

/-- Severity constant from `Risk.Severity`. -/
def Severity.HIGH : String := "HIGH"

/-- Duration-unit constant from `Risk.DurationUnit`. -/
def DurationUnit.HOURS : String := "HOURS"

/-- Duration-unit constant from `Risk.DurationUnit`. -/
def DurationUnit.DAYS : String := "DAYS"

/-- Duration-unit constant from `Risk.DurationUnit`. -/
def DurationUnit.WEEKS : String := "WEEKS"

/-- `Risk.get_resolution_hours` from `risks/models.py` lines 210-237:
normalizes the stored duration to hours (HOURS 1:1, DAYS times 24, WEEKS
times 168), 0 for an unknown unit. -/
def Risk.get_resolution_hours (r : Risk) : Nat :=
  if r.resolution_duration_unit == DurationUnit.HOURS then
    r.estimated_resolution_duration
  else if r.resolution_duration_unit == DurationUnit.DAYS then
    r.estimated_resolution_duration * 24
  else if r.resolution_duration_unit == DurationUnit.WEEKS then
    r.estimated_resolution_duration * 24 * 7
  else 0

/-- How a gated view terminates: an HTTP redirect, a `PermissionDenied`
exception (rendered as HTTP 403), or the wrapped view body running (a
rendered template). -/
inductive Outcome
  | redirect (target : String)
  | forbidden
  | rendered (template : String)
  deriving Repr, DecidableEq

/-- A view result together with the user-visible messages recorded via
`django.contrib.messages` on the way. -/
structure Response where
  messages : List String
  outcome : Outcome
  deriving Repr, DecidableEq

/-- `role_required` from `accounts/decorators.py` lines 32-82: an
unauthenticated request (`user = none`) is redirected to the login page;
an authenticated user whose role is not among `roles` gets an error
message recorded and `PermissionDenied` raised; otherwise the wrapped
view runs. -/
def role_required (roles : List String) (view : User → Response) :
    Option User → Response
  | none => { messages := [], outcome := Outcome.redirect "accounts:login" }
  | some u =>
    if roles.contains u.role then view u
    else
      { messages := ["You do not have permission to access this page."]
        outcome := Outcome.forbidden }

/-- The body of `risk_update` (`risks/views.py` lines 106-113) for a
given risk, after the role gate: a user who cannot edit the risk gets an
error message recorded and is redirected to the risk detail page; an
authorized editor proceeds to the form (the form-processing tail of the
view is abstracted as rendering the form template). -/
def risk_update_body (risk : Risk) (u : User) : Response :=
  if u.can_edit_risk risk then
    { messages := [], outcome := Outcome.rendered "risks/risk_form.html" }
  else
    { messages := ["You do not have permission to edit this risk."]
      outcome := Outcome.redirect "risks:detail" }

/-- `risk_update` as deployed: the
`department_user_or_admin_required` gate (role ADMIN or DEPARTMENT_USER)
wrapped around the view body. -/
def risk_update (risk : Risk) (user : Option User) : Response :=
  role_required [Role.ADMIN, Role.DEPARTMENT_USER] (risk_update_body risk) user

/-- `Paginator.num_pages` for the default settings used in `risk_list`
(orphans 0, allow_empty_first_page true): the ceiling of
`max 1 count / per_page`. -/
def Paginator.num_pages (count per_page : Nat) : Nat :=
  (max 1 count + per_page - 1) / per_page

/-- `Paginator.get_page` page-number resolution: a missing or
non-integer `page` query parameter (`PageNotAnInteger`) falls back to
page 1; an integer below 1 or above `num_pages` (`EmptyPage`) falls back
to the last page. -/
def Paginator.get_page_number (count per_page : Nat) (page : Option Int) : Nat :=
  let np := Paginator.num_pages count per_page
  match page with
  | none => 1
  | some n => if n < 1 then np else if n > (np : Int) then np else n.toNat

/-- The object list of a given (1-based) page: a slice of `per_page`
records starting at `(number - 1) * per_page`. -/
def Paginator.page_objects (objects : List Risk) (per_page number : Nat) :
    List Risk :=
  (objects.drop ((number - 1) * per_page)).take per_page

/-- The pagination stage of `risk_list` (`risks/views.py` lines 39-43):
`Paginator(risks, 20)` followed by `paginator.get_page(page_number)`,
applied to the already filtered and ordered risk list. -/
def risk_list_page (risks : List Risk) (page : Option Int) : List Risk :=
  Paginator.page_objects risks 20 (Paginator.get_page_number risks.length 20 page)

/-- Stable insertion of `x` into `l`, keeping `x` before later equal
elements. -/
def insertSorted (le : Risk → Risk → Bool) (x : Risk) : List Risk → List Risk
  | [] => [x]
  | y :: ys => if le x y then x :: y :: ys else y :: insertSorted le x ys

/-- Stable insertion sort used to model Django `order_by`. -/
def sortRisks (le : Risk → Risk → Bool) : List Risk → List Risk
  | [] => []
  | x :: xs => insertSorted le x (sortRisks le xs)

/-- `order_by('-created_at')`: newest first, stable on ties. -/
def order_by_created_desc (risks : List Risk) : List Risk :=
  sortRisks (fun a b => decide (b.created_at ≤ a.created_at)) risks

/-- `values('severity').annotate(count=Count('id')).order_by('severity')`:
the distinct severities in ascending order, each with its row count. -/
def severity_distribution (risks : List Risk) : List (String × Nat) :=
  (List.mergeSort ((risks.map Risk.severity).eraseDups)
      (fun a b => decide (a ≤ b))).map
    (fun s => (s, (risks.filter (fun r => r.severity == s)).length))

/-- The context dictionary built by
`_get_department_user_dashboard_context` (`dashboard/views.py` lines
125-154) when the user has a department. -/
structure DeptDashboard where
  department : DeptId
  total_risks : Nat
  open_risks : Nat
  critical_risks : Nat
  locked_risks : Nat
  severity_stats : List (String × Nat)
  recent_risks : List Risk
  deriving Repr, DecidableEq

/-- `_get_department_user_dashboard_context`: returns the empty context
(`none`) when the user has no department (`if not user.department`),
otherwise the department-scoped statistics. -/
def dashboard_department_user_context (user : User) (risks : List Risk) :
    Option DeptDashboard :=
  match user.department with
  | none => none
  | some d =>
    let dept_risks := risks.filter (fun r => r.department == d)
    some
      { department := d
        total_risks := dept_risks.length
        open_risks := (dept_risks.filter (fun r => r.status == Status.OPEN)).length
        critical_risks :=
          (dept_risks.filter (fun r => r.severity == Severity.CRITICAL)).length
        locked_risks := (dept_risks.filter (fun r => r.is_locked)).length
        severity_stats := severity_distribution dept_risks
        recent_risks := (order_by_created_desc dept_risks).take 10 }

/-- One-decimal rounding, modelling Python `round(x, 1)` and the `.1f`
format specifier. -/
def round1 (q : ℚ) : ℚ := ((round (q * 10) : ℤ) : ℚ) / 10

/-- The `avg_resolution_hours` entry of `_get_admin_dashboard_context`
(`dashboard/views.py` lines 109-121): `Avg` of the raw
`estimated_resolution_duration` column (`None`, hence 0, when there are
no rows) rounded to one decimal. -/
def avg_resolution_hours (risks : List Risk) : ℚ :=
  let avg : ℚ :=
    if risks.length = 0 then 0
    else
      (risks.map (fun r => (r.estimated_resolution_duration : ℚ))).sum /
        (risks.length : ℚ)
  round1 avg

/-- A percentage cell of the executive-summary table in `export_pdf`
(`dashboard/views.py` lines 291-299): `part / total * 100` guarded to 0
when `total` is 0, then rendered with the one-decimal format. -/
def export_pdf_pct (part total : Nat) : ℚ :=
  round1 (if 0 < total then (part : ℚ) / (total : ℚ) * 100 else 0)

/-- The five percentage cells of the executive summary in `export_pdf`. -/
structure SummaryStats where
  total_risks : Nat
  open_pct : ℚ
  in_progress_pct : ℚ
  resolved_pct : ℚ
  critical_pct : ℚ
  high_pct : ℚ
  deriving Repr, DecidableEq

/-- A list of 45 distinct risks (consecutive creation times) used to
exercise the pagination scenario of the specification. -/
def risks45 : List Risk :=
  (List.range 45).map (fun i =>
    ⟨1, "p", "i", 1, "HOURS", none, "MEDIUM", "OPEN", false, none, none,
      none, none, i⟩)

/-- A risk whose resolution estimate is 1 week: raw stored value 1,
normalized value 168 hours. -/
def weekRisk : Risk :=
  ⟨1, "p", "i", 1, "WEEKS", none, "MEDIUM", "OPEN", false, none, none,
    none, none, 0⟩

/-- An open critical risk, for evaluating the summary statistics. -/
def openCriticalRisk : Risk :=
  ⟨1, "p", "i", 1, "HOURS", none, "CRITICAL", "OPEN", false, none, none,
    none, none, 0⟩

/-- A resolved high-severity risk, for evaluating the summary
statistics. -/
def resolvedHighRisk : Risk :=
  ⟨1, "p", "i", 1, "HOURS", none, "HIGH", "RESOLVED", false, none, none,
    none, none, 1⟩

/-- The summary-statistics block of `export_pdf` (`dashboard/views.py`
lines 281-299). -/
def export_pdf_summary (risks : List Risk) : SummaryStats :=
  let total := risks.length
  { total_risks := total
    open_pct :=
      export_pdf_pct (risks.filter (fun r => r.status == Status.OPEN)).length total
    in_progress_pct :=
      export_pdf_pct (risks.filter (fun r => r.status == Status.IN_PROGRESS)).length
        total
    resolved_pct :=
      export_pdf_pct (risks.filter (fun r => r.status == Status.RESOLVED)).length
        total
    critical_pct :=
      export_pdf_pct (risks.filter (fun r => r.severity == Severity.CRITICAL)).length
        total
    high_pct :=
      export_pdf_pct (risks.filter (fun r => r.severity == Severity.HIGH)).length
        total }

end BCM

namespace BCM

/-- C1: can_edit_risk returns true iff the user is an ADMIN, or is a
DEPARTMENT_USER whose department matches the risk department while the
risk is unlocked; a VIEWER can never edit. -/
theorem can_edit_iff (u : User) (r : Risk) :
    (u.can_edit_risk r = true ↔
      (u.role = Role.ADMIN ∨
        (u.role = Role.DEPARTMENT_USER ∧ u.department = some r.department ∧
          r.is_locked = false))) ∧
    (u.role = Role.VIEWER → u.can_edit_risk r = false) := by
  constructor
  · unfold User.can_edit_risk User.is_admin User.is_department_user
    constructor
    · intro h
      by_cases ha : u.role = Role.ADMIN
      · exact Or.inl ha
      · simp [ha] at h
        by_cases hd : u.role = Role.DEPARTMENT_USER
        · by_cases hm : u.department = some r.department
          · simp [hd, hm] at h
            exact Or.inr ⟨hd, hm, by simpa using h⟩
          · simp [hd] at h
            exact absurd h.1.symm hm
        · simp [hd] at h
    · rintro (ha | ⟨hd, hm, hl⟩)
      · simp [ha]
      · have : u.role ≠ Role.ADMIN := by simp [hd, Role.ADMIN, Role.DEPARTMENT_USER]
        simp [this, hd, hm.symm, hl]
  · intro hv
    have h1 : u.role ≠ Role.ADMIN := by simp [hv, Role.ADMIN, Role.VIEWER]
    have h2 : u.role ≠ Role.DEPARTMENT_USER := by
      simp [hv, Role.DEPARTMENT_USER, Role.VIEWER]
    unfold User.can_edit_risk User.is_admin User.is_department_user
    simp [h1, h2]

/-- C2: can_view_risk returns true iff the user is an ADMIN or a VIEWER,
or is a DEPARTMENT_USER whose department matches the risk department;
any other role sees nothing. -/
theorem can_view_iff (u : User) (r : Risk) :
    u.can_view_risk r = true ↔
      (u.role = Role.ADMIN ∨ u.role = Role.VIEWER ∨
        (u.role = Role.DEPARTMENT_USER ∧ u.department = some r.department)) := by
  unfold User.can_view_risk User.is_admin User.is_viewer User.is_department_user
  constructor
  · intro h
    by_cases ha : u.role = Role.ADMIN
    · exact Or.inl ha
    · by_cases hv : u.role = Role.VIEWER
      · exact Or.inr (Or.inl hv)
      · simp [ha, hv] at h
        by_cases hd : u.role = Role.DEPARTMENT_USER
        · simp [hd] at h
          exact Or.inr (Or.inr ⟨hd, h.symm⟩)
        · simp [hd] at h
  · rintro (ha | hv | ⟨hd, hm⟩)
    · simp [ha]
    · simp [hv]
    · have : u.role ≠ Role.ADMIN := by simp [hd, Role.ADMIN, Role.DEPARTMENT_USER]
      have hv : u.role ≠ Role.VIEWER := by simp [hd, Role.VIEWER, Role.DEPARTMENT_USER]
      simp [this, hv, hd, hm.symm]

/-- C3: a department user creating a risk always gets a risk whose
department is their own, and two requests from the same department user
that differ only in the submitted department value produce identical
risks. -/
theorem risk_create_forces_own_department (u : User) (d : RiskFormData)
    (d1 d2 : Option DeptId) (h : u.role = Role.DEPARTMENT_USER) :
    (risk_create u d).department = u.department ∧
    risk_create u { d with department := d1 } =
      risk_create u { d with department := d2 } := by
  have hd : u.is_department_user = true := by
    simp [User.is_department_user, h]
  constructor
  · simp [risk_create, hd]
  · simp [risk_create, RiskForm.save_commit_false, RiskForm.cleaned_department, hd]

/-- C3 witness: a concrete department user in department 7 submitting
department 3 still creates a risk in department 7, and submitting
department 3 versus department 4 makes no difference. -/
theorem risk_create_forces_own_department_witness :
    (risk_create ⟨1, "DEPARTMENT_USER", some 7⟩
        ⟨some 3, "p", "i", 4, "HOURS", none, "MEDIUM", "OPEN"⟩).department = some 7 ∧
    risk_create ⟨1, "DEPARTMENT_USER", some 7⟩
        ⟨some 3, "p", "i", 4, "HOURS", none, "MEDIUM", "OPEN"⟩ =
      risk_create ⟨1, "DEPARTMENT_USER", some 7⟩
        ⟨some 4, "p", "i", 4, "HOURS", none, "MEDIUM", "OPEN"⟩ :=
  risk_create_forces_own_department ⟨1, "DEPARTMENT_USER", some 7⟩
    ⟨some 3, "p", "i", 4, "HOURS", none, "MEDIUM", "OPEN"⟩ (some 3) (some 4) rfl

/-- C5: locking an already-locked risk again leaves it locked with
locked_by and locked_at refreshed to the most recent admin and lock
time; locking twice with two different admins leaves locked_by equal to
the second admin. -/
theorem lock_idempotent (r : Risk) (a a1 a2 : User) (t t1 t2 : Time)
    (hlocked : r.is_locked = true) (ha : a.role = Role.ADMIN)
    (ha1 : a1.role = Role.ADMIN) (ha2 : a2.role = Role.ADMIN) :
    ((r.lock a t).is_locked = true ∧ (r.lock a t).locked_by = some a.id ∧
      (r.lock a t).locked_at = some t) ∧
    ((r.lock a1 t1).lock a2 t2).is_locked = true ∧
    ((r.lock a1 t1).lock a2 t2).locked_by = some a2.id ∧
    ((r.lock a1 t1).lock a2 t2).locked_at = some t2 :=
  ⟨⟨rfl, rfl, rfl⟩, rfl, rfl, rfl⟩

/-- C5 witness: a concrete locked risk relocked by admin 2 and then
admin 3 ends up locked by admin 3. -/
theorem lock_idempotent_witness :
    let r : Risk :=
      ⟨5, "p", "i", 4, "HOURS", none, "MEDIUM", "OPEN", true, some 9, some 11,
        none, none, 0⟩
    let a2 : User := ⟨2, "ADMIN", none⟩
    let a3 : User := ⟨3, "ADMIN", none⟩
    ((r.lock a2 20).is_locked = true ∧ (r.lock a2 20).locked_by = some 2 ∧
      (r.lock a2 20).locked_at = some 20) ∧
    ((r.lock a2 20).lock a3 30).is_locked = true ∧
    ((r.lock a2 20).lock a3 30).locked_by = some 3 ∧
    ((r.lock a2 20).lock a3 30).locked_at = some 30 :=
  lock_idempotent
    ⟨5, "p", "i", 4, "HOURS", none, "MEDIUM", "OPEN", true, some 9, some 11,
      none, none, 0⟩
    ⟨2, "ADMIN", none⟩ ⟨2, "ADMIN", none⟩ ⟨3, "ADMIN", none⟩ 20 20 30
    rfl rfl rfl rfl

/-- C6: lock followed by unlock leaves the risk with is_locked false and
locked_by, locked_at null, every other field unchanged — the composite
equals the original record with exactly those three fields reset. -/
theorem lock_then_unlock (r : Risk) (a : User) (t : Time) :
    (r.lock a t).unlock.is_locked = false ∧
    (r.lock a t).unlock.locked_by = none ∧
    (r.lock a t).unlock.locked_at = none ∧
    (r.lock a t).unlock =
      { r with is_locked := false, locked_by := none, locked_at := none } :=
  ⟨rfl, rfl, rfl, rfl⟩

/-- C4 counterexample: a department user of department 1 asking to edit
a locked risk of their own department passes the role gate but fails the
object-level check; the code records the denial message and redirects to
the detail page instead of raising the forbidden signal the claim
demands. -/
theorem risk_update_object_denial_redirects :
    risk_update
        ⟨1, "p", "i", 4, "HOURS", none, "MEDIUM", "OPEN", true, some 2,
          some 10, none, none, 0⟩
        (some ⟨1, "DEPARTMENT_USER", some 1⟩) =
      { messages := ["You do not have permission to edit this risk."]
        outcome := Outcome.redirect "risks:detail" } ∧
    (risk_update
        ⟨1, "p", "i", 4, "HOURS", none, "MEDIUM", "OPEN", true, some 2,
          some 10, none, none, 0⟩
        (some ⟨1, "DEPARTMENT_USER", some 1⟩)).outcome ≠
      Outcome.forbidden := by
  exact ⟨rfl, by decide⟩

/-- C4 amended: an unauthenticated actor is redirected to the login
entry point with no error; an authenticated actor whose role fails a
role gate gets a recorded denial notice followed by the forbidden
signal; an authenticated actor of an allowed role who is denied on a
specific risk in risk_update gets a recorded denial notice followed by a
redirect to the risk detail page — never a silent failure. -/
theorem gated_denial_behavior (roles : List String) (view : User → Response)
    (r : Risk) (u v : User)
    (hrole : roles.contains v.role = false)
    (hgate : [Role.ADMIN, Role.DEPARTMENT_USER].contains u.role = true)
    (hedit : u.can_edit_risk r = false) :
    role_required roles view none =
      { messages := [], outcome := Outcome.redirect "accounts:login" } ∧
    role_required roles view (some v) =
      { messages := ["You do not have permission to access this page."]
        outcome := Outcome.forbidden } ∧
    risk_update r (some u) =
      { messages := ["You do not have permission to edit this risk."]
        outcome := Outcome.redirect "risks:detail" } := by
  refine ⟨rfl, ?_, ?_⟩
  · have hmem : v.role ∉ roles := by simpa using hrole
    simp [role_required, hmem]
  · have hmem : u.role = Role.ADMIN ∨ u.role = Role.DEPARTMENT_USER := by
      simpa using hgate
    rcases hmem with hmem | hmem <;>
      simp [risk_update, role_required, risk_update_body, hedit, hmem]

/-- C4 witness: concrete instances — an anonymous request at an
admin-only gate, a viewer at the same gate, and a department user
denied on a locked risk of their department. -/
theorem gated_denial_behavior_witness :
    role_required ["ADMIN"] (fun _ => ⟨[], Outcome.rendered "t"⟩) none =
      { messages := [], outcome := Outcome.redirect "accounts:login" } ∧
    role_required ["ADMIN"] (fun _ => ⟨[], Outcome.rendered "t"⟩)
        (some ⟨3, "VIEWER", none⟩) =
      { messages := ["You do not have permission to access this page."]
        outcome := Outcome.forbidden } ∧
    risk_update
        ⟨2, "q", "j", 4, "HOURS", none, "MEDIUM", "OPEN", true, some 2,
          some 10, none, none, 0⟩
        (some ⟨4, "DEPARTMENT_USER", some 2⟩) =
      { messages := ["You do not have permission to edit this risk."]
        outcome := Outcome.redirect "risks:detail" } :=
  gated_denial_behavior ["ADMIN"] (fun _ => ⟨[], Outcome.rendered "t"⟩)
    ⟨2, "q", "j", 4, "HOURS", none, "MEDIUM", "OPEN", true, some 2, some 10,
      none, none, 0⟩
    ⟨4, "DEPARTMENT_USER", some 2⟩ ⟨3, "VIEWER", none⟩
    (by decide) (by decide) (by decide)

/-- C7 counterexample: with the 45 concrete risks, requesting page 0
returns the contents of page 3 (the last page), not the nearest valid
page 1 the claim demands. -/
theorem risk_list_page_zero_clamps_to_last :
    risk_list_page risks45 (some 0) = risk_list_page risks45 (some 3) ∧
    risk_list_page risks45 (some 0) ≠ risk_list_page risks45 (some 1) := by
  refine ⟨rfl, ?_⟩
  intro h
  have hlen := congrArg List.length h
  simp [risk_list_page, risks45, Paginator.get_page_number, Paginator.num_pages,
    Paginator.page_objects] at hlen

/-- C7 amended: the risk list is paginated with fixed page size 20; with
45 risks pages 1 and 2 hold 20 records and page 3 holds 5; an
above-range page (4) clamps to the last page (3); a below-range integer
page (0 or negative) also falls back to the last page, not the nearest
valid page; a missing page parameter yields page 1. -/
theorem risk_list_pagination (risks : List Risk) (h : risks.length = 45) :
    (risk_list_page risks (some 1)).length = 20 ∧
    (risk_list_page risks (some 2)).length = 20 ∧
    (risk_list_page risks (some 3)).length = 5 ∧
    risk_list_page risks (some 4) = risk_list_page risks (some 3) ∧
    risk_list_page risks (some 0) = risk_list_page risks (some 3) ∧
    risk_list_page risks (some (-2)) = risk_list_page risks (some 3) ∧
    risk_list_page risks none = risk_list_page risks (some 1) := by
  refine ⟨?_, ?_, ?_, ?_, ?_, ?_, ?_⟩ <;>
    simp [risk_list_page, Paginator.get_page_number, Paginator.num_pages,
      Paginator.page_objects, h, List.length_take, List.length_drop]

/-- C7 witness: the amended pagination facts evaluated on the 45
concrete risks. -/
theorem risk_list_pagination_witness :
    (risk_list_page risks45 (some 1)).length = 20 ∧
    (risk_list_page risks45 (some 2)).length = 20 ∧
    (risk_list_page risks45 (some 3)).length = 5 ∧
    risk_list_page risks45 (some 4) = risk_list_page risks45 (some 3) ∧
    risk_list_page risks45 (some 0) = risk_list_page risks45 (some 3) ∧
    risk_list_page risks45 (some (-2)) = risk_list_page risks45 (some 3) ∧
    risk_list_page risks45 none = risk_list_page risks45 (some 1) :=
  risk_list_pagination risks45 rfl

/-- C8: in the executive summary of the document export, a total of 0
risks makes every percentage cell report 0 with no division performed,
and a positive total makes each percentage cell equal count divided by
total times 100 at one-decimal precision. -/
theorem export_pdf_summary_percentages (risks : List Risk) :
    (risks.length = 0 →
      (export_pdf_summary risks).open_pct = 0 ∧
      (export_pdf_summary risks).in_progress_pct = 0 ∧
      (export_pdf_summary risks).resolved_pct = 0 ∧
      (export_pdf_summary risks).critical_pct = 0 ∧
      (export_pdf_summary risks).high_pct = 0) ∧
    (0 < risks.length →
      (export_pdf_summary risks).open_pct =
        round1 (((risks.filter (fun r => r.status == Status.OPEN)).length : ℚ) /
          (risks.length : ℚ) * 100) ∧
      (export_pdf_summary risks).in_progress_pct =
        round1
          (((risks.filter (fun r => r.status == Status.IN_PROGRESS)).length : ℚ) /
            (risks.length : ℚ) * 100) ∧
      (export_pdf_summary risks).resolved_pct =
        round1
          (((risks.filter (fun r => r.status == Status.RESOLVED)).length : ℚ) /
            (risks.length : ℚ) * 100) ∧
      (export_pdf_summary risks).critical_pct =
        round1
          (((risks.filter (fun r => r.severity == Severity.CRITICAL)).length : ℚ) /
            (risks.length : ℚ) * 100) ∧
      (export_pdf_summary risks).high_pct =
        round1
          (((risks.filter (fun r => r.severity == Severity.HIGH)).length : ℚ) /
            (risks.length : ℚ) * 100)) := by
  constructor
  · intro h0
    have : risks = [] := List.length_eq_zero.mp h0
    subst this
    simp [export_pdf_summary, export_pdf_pct, round1]
  · intro hpos
    simp [export_pdf_summary, export_pdf_pct, hpos]

/-- C8 witness: the empty register gives all-zero percentages, and a
two-risk register (one open critical, one resolved high) gives each cell
the rounded count/total*100 value. -/
theorem export_pdf_summary_percentages_witness :
    ((export_pdf_summary []).open_pct = 0 ∧
      (export_pdf_summary []).in_progress_pct = 0 ∧
      (export_pdf_summary []).resolved_pct = 0 ∧
      (export_pdf_summary []).critical_pct = 0 ∧
      (export_pdf_summary []).high_pct = 0) ∧
    ((export_pdf_summary [openCriticalRisk, resolvedHighRisk]).open_pct =
        round1
          ((([openCriticalRisk, resolvedHighRisk].filter
              (fun r => r.status == Status.OPEN)).length : ℚ) /
            (([openCriticalRisk, resolvedHighRisk] : List Risk).length : ℚ) * 100) ∧
      (export_pdf_summary [openCriticalRisk, resolvedHighRisk]).in_progress_pct =
        round1
          ((([openCriticalRisk, resolvedHighRisk].filter
              (fun r => r.status == Status.IN_PROGRESS)).length : ℚ) /
            (([openCriticalRisk, resolvedHighRisk] : List Risk).length : ℚ) * 100) ∧
      (export_pdf_summary [openCriticalRisk, resolvedHighRisk]).resolved_pct =
        round1
          ((([openCriticalRisk, resolvedHighRisk].filter
              (fun r => r.status == Status.RESOLVED)).length : ℚ) /
            (([openCriticalRisk, resolvedHighRisk] : List Risk).length : ℚ) * 100) ∧
      (export_pdf_summary [openCriticalRisk, resolvedHighRisk]).critical_pct =
        round1
          ((([openCriticalRisk, resolvedHighRisk].filter
              (fun r => r.severity == Severity.CRITICAL)).length : ℚ) /
            (([openCriticalRisk, resolvedHighRisk] : List Risk).length : ℚ) * 100) ∧
      (export_pdf_summary [openCriticalRisk, resolvedHighRisk]).high_pct =
        round1
          ((([openCriticalRisk, resolvedHighRisk].filter
              (fun r => r.severity == Severity.HIGH)).length : ℚ) /
            (([openCriticalRisk, resolvedHighRisk] : List Risk).length : ℚ) * 100)) :=
  ⟨(export_pdf_summary_percentages []).1 rfl,
    (export_pdf_summary_percentages [openCriticalRisk, resolvedHighRisk]).2
      (by decide)⟩

/-- C9: the admin dashboard average resolution time is the mean of the
raw estimated_resolution_duration values rounded to one decimal, 0 when
there are no risks; it does not normalize units — a register holding one
1-week risk averages to 1, although that risk normalizes to 168 hours. -/
theorem admin_avg_resolution_unit_naive (risks : List Risk) (h : risks ≠ []) :
    avg_resolution_hours [] = 0 ∧
    avg_resolution_hours risks =
      round1 ((risks.map (fun r => (r.estimated_resolution_duration : ℚ))).sum /
        (risks.length : ℚ)) ∧
    avg_resolution_hours [weekRisk] = 1 ∧
    weekRisk.get_resolution_hours = 168 := by
  refine ⟨?_, ?_, ?_, by decide⟩
  · simp [avg_resolution_hours, round1]
  · have h0 : risks.length ≠ 0 := by simpa [List.length_eq_zero] using h
    simp [avg_resolution_hours, h0]
  · norm_num [avg_resolution_hours, weekRisk, round1, round_eq]

/-- C9 witness: the unit-naive average evaluated on the singleton
register holding the 1-week risk. -/
theorem admin_avg_resolution_unit_naive_witness :
    avg_resolution_hours [] = 0 ∧
    avg_resolution_hours [weekRisk] =
      round1 (([weekRisk].map
          (fun r => (r.estimated_resolution_duration : ℚ))).sum /
        (([weekRisk] : List Risk).length : ℚ)) ∧
    avg_resolution_hours [weekRisk] = 1 ∧
    weekRisk.get_resolution_hours = 168 :=
  admin_avg_resolution_unit_naive [weekRisk] (by decide)

/-- C10: a department user whose department reference is null can view
and edit no risk (a risk department is never null, hence never equal to
the null reference), and their dashboard context is the empty one. -/
theorem null_department_user_sees_nothing (u : User) (r : Risk)
    (risks : List Risk) (hrole : u.role = Role.DEPARTMENT_USER)
    (hdept : u.department = none) :
    u.can_view_risk r = false ∧ u.can_edit_risk r = false ∧
    dashboard_department_user_context u risks = none := by
  have h1 : u.role ≠ Role.ADMIN := by
    simp [hrole, Role.ADMIN, Role.DEPARTMENT_USER]
  have h2 : u.role ≠ Role.VIEWER := by
    simp [hrole, Role.VIEWER, Role.DEPARTMENT_USER]
  refine ⟨?_, ?_, ?_⟩
  · simp [User.can_view_risk, User.is_admin, User.is_viewer,
      User.is_department_user, h1, h2, hrole, hdept]
    exact ⟨by decide, by decide⟩
  · simp [User.can_edit_risk, User.is_admin, User.is_department_user, h1, hdept]
  · simp [dashboard_department_user_context, hdept]

/-- C10 witness: a concrete department user with no department can
neither view nor edit a concrete risk, and gets the empty dashboard
context. -/
theorem null_department_user_sees_nothing_witness :
    (⟨6, "DEPARTMENT_USER", none⟩ : User).can_view_risk openCriticalRisk = false ∧
    (⟨6, "DEPARTMENT_USER", none⟩ : User).can_edit_risk openCriticalRisk = false ∧
    dashboard_department_user_context ⟨6, "DEPARTMENT_USER", none⟩
      [openCriticalRisk] = none :=
  null_department_user_sees_nothing ⟨6, "DEPARTMENT_USER", none⟩
    openCriticalRisk [openCriticalRisk] rfl rfl

end BCM
